import Mathlib

/-!
# Verification of the library catalog manager (`src/main.py`)

A shallow embedding of the persistence/record layer of the Python program:
the `Book` record model, the JSON file round-trip, and the Catalog Store
operations `add_book`, `remove_book`, `search_books`, `update_book_status`,
`save_books`, `load_books`.

Python state is passed explicitly: each store operation takes the current
in-memory collection (`List Book`) and returns the new collection together
with the values the Python code produces (return value, whether
`save_books` was invoked).  The entropy source `os.urandom(4)` is modelled
by four explicit byte arguments; file-system effects are modelled by a
`FileContent` value for reads and an explicit `writeOk` flag for writes.
-/

/-- A parsed JSON value, as produced by Python's `json.load`.
Numbers are modelled as integers (the program only ever stores the integer
fields `id` and `year`). -/
inductive Json where
  | null : Json
  | bool (b : Bool) : Json
  | num (n : Int) : Json
  | str (s : String) : Json
  | arr (elems : List Json) : Json
  | obj (fields : List (String × Json)) : Json

/-- A book record.  Mirrors `Book.__init__`: attribute order is
`id, title, author, year, status`.  `id` and `year` are Python ints,
the rest are strings. -/
structure Book where
  id : Int
  title : String
  author : String
  year : Int
  status : String
deriving DecidableEq, Repr

/-- The status literal assigned on creation (`"в наличии"`, *available*). -/
def statusAvailable : String := "в наличии"

/-- The second status literal (`"выдана"`, *checked out*). -/
def statusCheckedOut : String := "выдана"

/-- `Book.generate_unique_id`: `int(os.urandom(4).hex(), 16)`.
The four bytes returned by `os.urandom(4)` are explicit arguments; hex
encoding followed by base-16 conversion reads them big-endian. -/
def generate_unique_id (b0 b1 b2 b3 : Nat) : Nat :=
  b0 * 16777216 + b1 * 65536 + b2 * 256 + b3

/-- `Book(title, author, year)`: a fresh record with a generated id and
default status `"в наличии"` (`Book.__init__`). -/
def Book.create (b0 b1 b2 b3 : Nat) (title author : String) (year : Int) : Book :=
  { id := (generate_unique_id b0 b1 b2 b3 : Int)
    title := title
    author := author
    year := year
    status := statusAvailable }

/-- Python's `str.lower()`, modelled as character-wise ASCII lowercasing. -/
def pyLower (s : String) : String :=
  String.mk (s.data.map Char.toLower)

/-- The decimal digit character of `n % 10`, used to model Python's
`str()` on integers. -/
def digitCh (n : Nat) : Char :=
  match n % 10 with
  | 0 => '0' | 1 => '1' | 2 => '2' | 3 => '3' | 4 => '4'
  | 5 => '5' | 6 => '6' | 7 => '7' | 8 => '8' | _ => '9'

/-- Decimal digit list of a natural number (most significant first). -/
def natToStr (n : Nat) : List Char :=
  if n < 10 then [digitCh n]
  else natToStr (n / 10) ++ [digitCh n]
decreasing_by exact Nat.div_lt_self (by omega) (by omega)

/-- Python's `str()` on an integer: optional minus sign followed by the
decimal digits. -/
def intToStr (i : Int) : String :=
  if i < 0 then String.mk ('-' :: natToStr i.natAbs)
  else String.mk (natToStr i.toNat)

/-- Boolean prefix test on character lists (used to model Python's
substring operator `in`). -/
def isPrefixB : List Char → List Char → Bool
  | [], _ => true
  | _ :: _, [] => false
  | a :: as, b :: bs => a == b && isPrefixB as bs

/-- Boolean substring test: does `sub` occur contiguously in `l`? -/
def hasSub : List Char → List Char → Bool
  | [], sub => sub.isEmpty
  | c :: t, sub => isPrefixB sub (c :: t) || hasSub t sub

/-- Python's `sub in s` on strings: contiguous substring containment. -/
def strIn (sub s : String) : Bool :=
  hasSub s.data sub.data

/-- What the store finds at its storage path when constructed. -/
inductive FileContent where
  /-- `os.path.exists` is false: no file. -/
  | absent : FileContent
  /-- The file exists but `json.load` raises `JSONDecodeError`, or reading
  raises `IOError`. -/
  | unparseable : FileContent
  /-- The file exists and parses as the given JSON value. -/
  | parsed (j : Json) : FileContent

/-- An exception raised while converting loaded JSON into `Book` objects.
Neither kind is caught by `load_books` (its `except` clause catches only
`json.JSONDecodeError` and `IOError`), so either aborts construction. -/
inductive LoadErr where
  /-- `KeyError`: a record object lacks one of the five required keys. -/
  | keyError : LoadErr
  /-- `TypeError`: a non-subscriptable/non-iterable value where a record
  object or record list was expected. -/
  | typeErr : LoadErr
deriving DecidableEq, Repr

/-- Key lookup in a parsed JSON object.  Python's `json` module keeps the
last occurrence of a duplicated key, hence the `reverse`. -/
def jlookup (fields : List (String × Json)) (k : String) : Option Json :=
  fields.reverse.lookup k

/-- `LibraryManagementSystem._dict_to_book`: reads the five keys
`title, author, year, id, status` (in the order Python evaluates them) and
builds a `Book`.  A missing key raises `KeyError`; subscripting a
non-object raises `TypeError`.  Python stores the looked-up values
verbatim; the model additionally requires each value to carry the record's
declared type (text title/author/status, integer id/year) — every input
exercised by the claims is well-typed or fails before this point. -/
def dict_to_book (j : Json) : Except LoadErr Book :=
  match j with
  | .obj fields =>
    match jlookup fields "title" with
    | none => .error .keyError
    | some tv =>
      match jlookup fields "author" with
      | none => .error .keyError
      | some av =>
        match jlookup fields "year" with
        | none => .error .keyError
        | some yv =>
          match jlookup fields "id" with
          | none => .error .keyError
          | some iv =>
            match jlookup fields "status" with
            | none => .error .keyError
            | some sv =>
              match tv, av, yv, iv, sv with
              | .str t, .str a, .num y, .num i, .str s =>
                .ok { id := i, title := t, author := a, year := y, status := s }
              | _, _, _, _, _ => .error .typeErr
  | _ => .error .typeErr

/-- The list comprehension `[self._dict_to_book(book) for book in book_data]`:
left to right, the first exception aborts the whole load. -/
def books_of_list : List Json → Except LoadErr (List Book)
  | [] => .ok []
  | j :: rest =>
    match dict_to_book j with
    | .error e => .error e
    | .ok b =>
      match books_of_list rest with
      | .error e => .error e
      | .ok bs => .ok (b :: bs)

/-- `LibraryManagementSystem.load_books`, run at construction.  Returns the
loaded collection paired with whether the recovery warning was printed;
an uncaught `KeyError`/`TypeError` is an `Except.error` (construction
fails).  Iterating a parsed dict yields its keys and iterating a parsed
string yields its one-character strings, as in Python. -/
def load_books (c : FileContent) : Except LoadErr (List Book × Bool) :=
  match c with
  | .absent => .ok ([], false)
  | .unparseable => .ok ([], true)
  | .parsed j =>
    match j with
    | .arr elems => (books_of_list elems).map (fun bs => (bs, false))
    | .obj fields =>
      (books_of_list (fields.map (fun kv => Json.str kv.1))).map (fun bs => (bs, false))
    | .str s =>
      (books_of_list (s.data.map (fun ch => Json.str (String.mk [ch])))).map
        (fun bs => (bs, false))
    | _ => .error .typeErr

/-- Serialization of one record: `book.__dict__` dumped as a JSON object,
keys in attribute-assignment order. -/
def book_to_json (b : Book) : Json :=
  .obj [("id", .num b.id), ("title", .str b.title), ("author", .str b.author),
        ("year", .num b.year), ("status", .str b.status)]

/-- The JSON document `save_books` writes: the whole collection as an array. -/
def books_to_json (books : List Book) : Json :=
  .arr (books.map book_to_json)

/-- Outcome of one call to `LibraryManagementSystem.save_books`. -/
structure SaveOut where
  /-- The in-memory collection after the call. -/
  books : List Book
  /-- The document that reached the file, `none` when the write raised
  `IOError`. -/
  written : Option Json
  /-- Whether the error message `"Ошибка при сохранении книг."` was printed. -/
  warned : Bool
  /-- The value returned to the caller: Python's `None` in both branches. -/
  ret : Unit

/-- `LibraryManagementSystem.save_books`.  `writeOk` models whether the
file write succeeds; on failure the `IOError` is caught and a message is
printed. -/
def save_books (writeOk : Bool) (books : List Book) : SaveOut :=
  if writeOk then ⟨books, some (books_to_json books), false, ()⟩
  else ⟨books, none, true, ()⟩

/-- `LibraryManagementSystem.add_book`: constructs the record, appends it,
calls `save_books`, and returns the new record.  Result: the new
collection, the collection handed to `save_books`, and the returned book. -/
def add_book (b0 b1 b2 b3 : Nat) (title author : String) (year : Int)
    (books : List Book) : List Book × List Book × Book :=
  let new_book := Book.create b0 b1 b2 b3 title author year
  (books ++ [new_book], books ++ [new_book], new_book)

/-- `LibraryManagementSystem.remove_book`: filters out every record whose
id equals `book_id`; if the length shrank, saves and returns `True`, else
returns `False`.  Result: the new collection, the collection handed to
`save_books` (if it was called), and the returned boolean. -/
def remove_book (book_id : Int) (books : List Book) :
    List Book × Option (List Book) × Bool :=
  let remaining := books.filter (fun b => !(b.id == book_id))
  if remaining.length < books.length then (remaining, some remaining, true)
  else (remaining, none, false)

/-- `LibraryManagementSystem.search_books`: lowercases the query once, then
filters by case-insensitive containment for `title`/`author`, by
`str(query) == str(book.year)` for `year`, and returns `[]` for any other
`search_type`. -/
def search_books (query : String) (search_type : String) (books : List Book) :
    List Book :=
  let q := pyLower query
  if search_type = "title" then
    books.filter (fun b => strIn q (pyLower b.title))
  else if search_type = "author" then
    books.filter (fun b => strIn q (pyLower b.author))
  else if search_type = "year" then
    books.filter (fun b => q == intToStr b.year)
  else []

/-- The scan loop of `update_book_status`: mutate the first record whose id
matches, save, return `True`; return `False` if none matches.  Result: the
new collection, the collection handed to `save_books` (if called), and the
returned boolean. -/
def update_scan (book_id : Int) (new_status : String) :
    List Book → List Book × Option (List Book) × Bool
  | [] => ([], none, false)
  | b :: rest =>
    if b.id == book_id then
      ({ b with status := new_status } :: rest,
       some ({ b with status := new_status } :: rest), true)
    else
      let t := update_scan book_id new_status rest
      (b :: t.1, t.2.1.map (fun saved => b :: saved), t.2.2)

/-- `LibraryManagementSystem.update_book_status`: rejects a `new_status`
outside the two enumerated literals before scanning; otherwise runs the
scan loop. -/
def update_book_status (book_id : Int) (new_status : String)
    (books : List Book) : List Book × Option (List Book) × Bool :=
  if !(new_status == statusAvailable || new_status == statusCheckedOut) then
    (books, none, false)
  else update_scan book_id new_status books


/-- A concrete record used in witnesses and counterexamples. -/
def bookZero : Book :=
  { id := 0, title := "Dune", author := "Herbert", year := 1965,
    status := statusAvailable }

/-- Helper: the scan loop of `update_book_status` on a collection split
around its first matching record. -/
theorem update_scan_found (book_id : Int) (st : String) (l₁ : List Book)
    (mb : Book) (l₂ : List Book) (h₁ : ∀ b ∈ l₁, b.id ≠ book_id)
    (hmb : mb.id = book_id) :
    update_scan book_id st (l₁ ++ mb :: l₂) =
      (l₁ ++ { mb with status := st } :: l₂,
       some (l₁ ++ { mb with status := st } :: l₂), true) := by
  induction l₁ with
  | nil => simp [update_scan, hmb]
  | cons b rest ih =>
    have hb : (b.id == book_id) = false := by simp [h₁ b (by simp)]
    simp [update_scan, hb, ih (fun x hx => h₁ x (by simp [hx]))]

/-- C4: for every collection, every id, and every `new_status` outside the
two enumerated literals, `update_book_status` returns `False`, does not
call `save_books`, and leaves the collection (every record and its status)
unchanged. -/
theorem update_book_status_invalid_rejected (book_id : Int)
    (new_status : String) (books : List Book)
    (h1 : new_status ≠ statusAvailable) (h2 : new_status ≠ statusCheckedOut) :
    update_book_status book_id new_status books = (books, none, false) := by
  have hg : (new_status == statusAvailable || new_status == statusCheckedOut)
      = false := by simp [h1, h2]
  simp [update_book_status, hg]

/-- Witness for C4 at the non-enumerated status `"borrowed"`. -/
theorem update_book_status_invalid_rejected_w :
    update_book_status 0 "borrowed" [bookZero] = ([bookZero], none, false) :=
  update_book_status_invalid_rejected 0 "borrowed" [bookZero]
    (by decide) (by decide)

/-- C9: with each of the four entropy bytes below 256, the generated id
lies in `[0, 2^32)`, and conversely every value in that range is produced
by some choice of the four bytes (the id is exactly 32 random bits wide). -/
theorem generate_unique_id_width :
    (∀ b0 b1 b2 b3 : Nat, b0 < 256 → b1 < 256 → b2 < 256 → b3 < 256 →
      generate_unique_id b0 b1 b2 b3 < 2 ^ 32)
    ∧ (∀ n : Nat, n < 2 ^ 32 →
      ∃ b0 b1 b2 b3 : Nat, b0 < 256 ∧ b1 < 256 ∧ b2 < 256 ∧ b3 < 256 ∧
        generate_unique_id b0 b1 b2 b3 = n) := by
  constructor
  · intro b0 b1 b2 b3 h0 h1 h2 h3
    unfold generate_unique_id
    omega
  · intro n hn
    refine ⟨n / 16777216, n / 65536 % 256, n / 256 % 256, n % 256,
      by omega, by omega, by omega, by omega, ?_⟩
    unfold generate_unique_id
    omega

/-- Witness for C9 at the all-ones byte quadruple. -/
theorem generate_unique_id_width_w :
    generate_unique_id 255 255 255 255 < 2 ^ 32 :=
  generate_unique_id_width.1 255 255 255 255
    (by decide) (by decide) (by decide) (by decide)

/-- C8 (amended): for every collection and either write outcome,
`save_books` leaves the in-memory collection exactly unchanged and returns
the same value to the caller as a successful save (Python `None`); on
failure nothing reaches the file and only a warning line is printed. -/
theorem save_books_failure_keeps_memory (writeOk : Bool) (books : List Book) :
    (save_books writeOk books).books = books
    ∧ (save_books writeOk books).ret = (save_books true books).ret
    ∧ (writeOk = false →
        (save_books writeOk books).written = none
        ∧ (save_books writeOk books).warned = true) := by
  cases writeOk <;> simp [save_books]

/-- Counterexample for C8 as stated: on a failed write the caller receives
exactly the same return value as on a successful write, so the failure is
not surfaced to the caller as a failed operation. -/
theorem save_books_failure_not_surfaced :
    (save_books false []).ret = (save_books true []).ret
    ∧ save_books false [] = ⟨[], none, true, ()⟩ := ⟨rfl, rfl⟩

/-- Witness for C8 on a failing write over a one-record collection. -/
theorem save_books_failure_keeps_memory_w :
    (save_books false [bookZero]).books = [bookZero]
    ∧ (save_books false [bookZero]).written = none :=
  ⟨(save_books_failure_keeps_memory false [bookZero]).1,
   ((save_books_failure_keeps_memory false [bookZero]).2.2 rfl).1⟩

/-- C2 (amended): content that fails JSON parsing (or an unreadable file)
is recovered: construction warns and starts empty; an absent file starts
empty without a warning; but content that parses as a JSON array whose
record object lacks a required key raises an uncaught `KeyError` and
construction fails. -/
theorem load_books_corruption_policy :
    load_books .unparseable = .ok ([], true)
    ∧ load_books .absent = .ok ([], false)
    ∧ load_books (.parsed (.arr [.obj []])) = .error .keyError :=
  ⟨rfl, rfl, rfl⟩

/-- Counterexample for C2 as stated: the file content `[{"author": "A"}]`
is malformed (the record lacks the `title` key), yet construction does not
yield an empty collection — the `KeyError` escapes and construction
fails. -/
theorem load_books_malformed_record_fails :
    load_books (.parsed (.arr [.obj [("author", Json.str "A")]]))
      = .error .keyError := rfl

/-- Helper: deserializing a serialized record restores it exactly. -/
theorem dict_to_book_roundtrip (b : Book) :
    dict_to_book (book_to_json b) = .ok b := rfl

/-- C3: saving any collection and loading the written document into a
fresh store reproduces the identical ordered sequence of records — same
ids, titles, authors, years and statuses, in the same order (and no
recovery warning is printed). -/
theorem save_load_roundtrip (books : List Book) :
    load_books (.parsed (books_to_json books)) = .ok (books, false) := by
  have h : books_of_list (books.map book_to_json) = .ok books := by
    induction books with
    | nil => rfl
    | cons b rest ih => simp [books_of_list, dict_to_book_roundtrip, ih]
  simp [load_books, books_to_json, h, Except.map]

/-- C1: `remove_book` matches ids by exact equality.  If no record's id
matches, it returns `False` without calling `save_books` and the
collection keeps its length and order (it is returned verbatim).  If a
record matches and — by the uniqueness invariant — it is the only match,
exactly that record is removed, the shrunk collection is saved, and
`True` is returned. -/
theorem remove_book_spec (book_id : Int) (books : List Book) :
    ((∀ b ∈ books, b.id ≠ book_id) →
      remove_book book_id books = (books, none, false))
    ∧ (∀ l₁ mb l₂, books = l₁ ++ mb :: l₂ → mb.id = book_id →
      (∀ b ∈ l₁, b.id ≠ book_id) → (∀ b ∈ l₂, b.id ≠ book_id) →
      remove_book book_id books = (l₁ ++ l₂, some (l₁ ++ l₂), true)) := by
  constructor
  · intro h
    have hf : books.filter (fun b => !(b.id == book_id)) = books :=
      List.filter_eq_self.mpr (fun b hb => by simp [h b hb])
    simp [remove_book, hf]
  · rintro l₁ mb l₂ rfl hmb h₁ h₂
    have e₁ : l₁.filter (fun b => !(b.id == book_id)) = l₁ :=
      List.filter_eq_self.mpr (fun b hb => by simp [h₁ b hb])
    have e₂ : l₂.filter (fun b => !(b.id == book_id)) = l₂ :=
      List.filter_eq_self.mpr (fun b hb => by simp [h₂ b hb])
    have hf : (l₁ ++ mb :: l₂).filter (fun b => !(b.id == book_id))
        = l₁ ++ l₂ := by
      simp [List.filter_append, List.filter_cons, hmb, e₁, e₂]
    have hlen : (l₁ ++ l₂).length < (l₁ ++ mb :: l₂).length := by simp
    simp [remove_book, hf, hlen]

/-- Witness for C1: removing the present id `0` from `[bookZero]` deletes
it and saves; removing the absent id `1` fails and changes nothing. -/
theorem remove_book_spec_w :
    remove_book 0 [bookZero] = ([], some [], true)
    ∧ remove_book 1 [bookZero] = ([bookZero], none, false) :=
  ⟨(remove_book_spec 0 [bookZero]).2 [] bookZero [] rfl rfl
      (by simp) (by simp),
   (remove_book_spec 1 [bookZero]).1 (by decide)⟩

/-- C10: on a collection holding two or more records with the same id,
`update_book_status` with a valid status mutates only the first record
whose id matches, keeps every earlier record, every later record (in
particular every later duplicate) and every other field verbatim, saves
the updated collection, and returns `True`. -/
theorem update_book_status_first_of_dupes (book_id : Int)
    (new_status : String) (l₁ : List Book) (mb : Book) (l₂ : List Book)
    (hv : new_status = statusAvailable ∨ new_status = statusCheckedOut)
    (h₁ : ∀ b ∈ l₁, b.id ≠ book_id) (hmb : mb.id = book_id)
    (_hdup : ∃ c ∈ l₂, c.id = book_id) :
    update_book_status book_id new_status (l₁ ++ mb :: l₂) =
      (l₁ ++ { mb with status := new_status } :: l₂,
       some (l₁ ++ { mb with status := new_status } :: l₂), true) := by
  have hg : (new_status == statusAvailable || new_status == statusCheckedOut)
      = true := by rcases hv with h | h <;> simp [h]
  simp [update_book_status, hg,
    update_scan_found book_id new_status l₁ mb l₂ h₁ hmb]

/-- Witness for C10 on `[bookZero, bookZero]`: only the first copy's
status changes. -/
theorem update_book_status_first_of_dupes_w :
    update_book_status 0 statusCheckedOut [bookZero, bookZero] =
      ([{ bookZero with status := statusCheckedOut }, bookZero],
       some [{ bookZero with status := statusCheckedOut }, bookZero], true) :=
  update_book_status_first_of_dupes 0 statusCheckedOut [] bookZero [bookZero]
    (Or.inr rfl) (by simp) rfl ⟨bookZero, by simp, rfl⟩

/-- Helper: `isPrefixB` decides prefix decomposition. -/
theorem isPrefixB_iff (sub l : List Char) :
    isPrefixB sub l = true ↔ ∃ t, l = sub ++ t := by
  induction sub generalizing l with
  | nil => simp [isPrefixB]
  | cons a as ih =>
    cases l with
    | nil => simp [isPrefixB]
    | cons b bs =>
      rw [show isPrefixB (a :: as) (b :: bs) = (a == b && isPrefixB as bs)
          from rfl, Bool.and_eq_true, beq_iff_eq, ih]
      constructor
      · rintro ⟨rfl, t, rfl⟩
        exact ⟨t, rfl⟩
      · rintro ⟨t, ht⟩
        injection ht with h1 h2
        exact ⟨h1.symm, t, h2⟩

/-- Helper: `hasSub` decides contiguous-substring decomposition. -/
theorem hasSub_iff (l sub : List Char) :
    hasSub l sub = true ↔ ∃ pre post, l = pre ++ sub ++ post := by
  induction l with
  | nil =>
    rw [show hasSub [] sub = sub.isEmpty from rfl, List.isEmpty_iff]
    constructor
    · rintro rfl
      exact ⟨[], [], rfl⟩
    · rintro ⟨pre, post, h⟩
      have h' := h.symm
      rw [List.append_eq_nil, List.append_eq_nil] at h'
      exact h'.1.2
  | cons c t ih =>
    rw [show hasSub (c :: t) sub = (isPrefixB sub (c :: t) || hasSub t sub)
        from rfl, Bool.or_eq_true, isPrefixB_iff, ih]
    constructor
    · rintro (⟨t', h⟩ | ⟨pre, post, h⟩)
      · exact ⟨[], t', by simp [h]⟩
      · exact ⟨c :: pre, post, by simp [h]⟩
    · rintro ⟨pre, post, h⟩
      cases pre with
      | nil => exact Or.inl ⟨post, by simpa using h⟩
      | cons p ps =>
        injection h with h1 h2
        exact Or.inr ⟨ps, post, h2⟩

/-- Helper: the empty string is a substring of every string. -/
theorem hasSub_nil_sub (l : List Char) : hasSub l [] = true := by
  cases l <;> simp [hasSub, isPrefixB]

/-- Helper: the `title` branch of `search_books`, unfolded. -/
theorem search_title_eq (q : String) (books : List Book) :
    search_books q "title" books =
      books.filter (fun b => strIn (pyLower q) (pyLower b.title)) := rfl

/-- Helper: the `author` branch of `search_books`, unfolded. -/
theorem search_author_eq (q : String) (books : List Book) :
    search_books q "author" books =
      books.filter (fun b => strIn (pyLower q) (pyLower b.author)) := rfl

/-- Helper: the `year` branch of `search_books`, unfolded. -/
theorem search_year_eq (q : String) (books : List Book) :
    search_books q "year" books =
      books.filter (fun b => pyLower q == intToStr b.year) := rfl

/-- C6: `search_books` on `title` (resp. `author`) returns, in collection
order (a sublist of the collection), exactly the records whose lowercased
title (resp. author) contains the lowercased query contiguously — a
case-insensitive substring match; with the empty query every record is
returned. -/
theorem search_books_text_fields (q : String) (books : List Book) :
    ((search_books q "title" books).Sublist books
      ∧ ∀ b, b ∈ search_books q "title" books ↔
          b ∈ books ∧ ∃ pre post,
            (pyLower b.title).data = pre ++ (pyLower q).data ++ post)
    ∧ ((search_books q "author" books).Sublist books
      ∧ ∀ b, b ∈ search_books q "author" books ↔
          b ∈ books ∧ ∃ pre post,
            (pyLower b.author).data = pre ++ (pyLower q).data ++ post)
    ∧ search_books "" "title" books = books
    ∧ search_books "" "author" books = books := by
  refine ⟨⟨?_, ?_⟩, ⟨?_, ?_⟩, ?_, ?_⟩
  · rw [search_title_eq]
    exact List.filter_sublist _
  · intro b
    rw [search_title_eq, List.mem_filter]
    simp only [strIn, hasSub_iff]
  · rw [search_author_eq]
    exact List.filter_sublist _
  · intro b
    rw [search_author_eq, List.mem_filter]
    simp only [strIn, hasSub_iff]
  · rw [search_title_eq]
    exact List.filter_eq_self.mpr
      (fun b _ => by simp [strIn, show (pyLower "").data = [] from rfl,
        hasSub_nil_sub])
  · rw [search_author_eq]
    exact List.filter_eq_self.mpr
      (fun b _ => by simp [strIn, show (pyLower "").data = [] from rfl,
        hasSub_nil_sub])

/-- Helper: decimal digit characters are lowercase fixed points with code
points below 97. -/
theorem digitCh_lower (n : Nat) :
    (digitCh n).toLower = digitCh n ∧ (digitCh n).toNat < 97 := by
  unfold digitCh
  split <;> exact (by decide)

/-- Helper: every character of `natToStr` is a lowercase fixed point with
code point below 97. -/
theorem natToStr_chars (n : Nat) :
    ∀ c ∈ natToStr n, c.toLower = c ∧ c.toNat < 97 := by
  induction n using Nat.strong_induction_on with
  | _ n ih =>
    rw [natToStr]
    split
    · intro c hc
      rw [List.mem_singleton] at hc
      subst hc
      exact digitCh_lower n
    next h =>
      intro c hc
      rw [List.mem_append] at hc
      rcases hc with hc | hc
      · exact ih (n / 10) (Nat.div_lt_self (by omega) (by omega)) c hc
      · rw [List.mem_singleton] at hc
        subst hc
        exact digitCh_lower n

/-- Helper: every character of Python's `str()` of an integer is a
lowercase fixed point with code point below 97. -/
theorem intToStr_chars (i : Int) :
    ∀ c ∈ (intToStr i).data, c.toLower = c ∧ c.toNat < 97 := by
  unfold intToStr
  split
  · intro c hc
    rw [show (String.mk ('-' :: natToStr i.natAbs)).data
        = '-' :: natToStr i.natAbs from rfl, List.mem_cons] at hc
    rcases hc with rfl | hc
    · exact (by decide)
    · exact natToStr_chars i.natAbs c hc
  · intro c hc
    exact natToStr_chars i.toNat c hc

/-- Helper: `Char.ofNat` on a valid low code point. -/
theorem char_toNat_ofNat_low (n : Nat) (h : n < 55296) :
    (Char.ofNat n).toNat = n := by
  rw [Char.ofNat, dif_pos (Or.inl h)]
  rfl

/-- Helper: if lowercasing `c` lands on a character with code point below
97, then `c` was already that character (lowercasing moves characters only
into the range 97–122). -/
theorem toLower_fixed (c d : Char) (hld : c.toLower = d) (hd : d.toNat < 97) :
    c = d := by
  have h' : (if c.toNat ≥ 65 ∧ c.toNat ≤ 90
      then Char.ofNat (c.toNat + 32) else c) = d := hld
  split at h'
  next hc =>
    exfalso
    have hv : (Char.ofNat (c.toNat + 32)).toNat = c.toNat + 32 :=
      char_toNat_ofNat_low (c.toNat + 32) (by omega)
    rw [h'] at hv
    omega
  next hc => exact h'

/-- Helper: lowercasing the query commutes with comparing it against a
rendered integer: the comparison result is the same for the raw query. -/
theorem pyLower_intToStr_iff (q : String) (i : Int) :
    pyLower q = intToStr i ↔ q = intToStr i := by
  constructor
  · intro h
    have hd : q.data.map Char.toLower = (intToStr i).data := by
      rw [← h]
      rfl
    have hfix : ∀ c ∈ q.data, Char.toLower c = c := by
      intro c hc
      have hm : Char.toLower c ∈ q.data.map Char.toLower :=
        List.mem_map_of_mem _ hc
      rw [hd] at hm
      exact (toLower_fixed c (Char.toLower c) rfl
        (intToStr_chars i (Char.toLower c) hm).2).symm
    apply String.ext
    rw [← hd, List.map_congr_left hfix]
    simp
  · rintro rfl
    have hfix : ∀ c ∈ (intToStr i).data, Char.toLower c = c :=
      fun c hc => (intToStr_chars i c hc).1
    apply String.ext
    rw [show (pyLower (intToStr i)).data
        = (intToStr i).data.map Char.toLower from rfl,
      List.map_congr_left hfix]
    simp

/-- C5: `search_books` on `year` returns exactly the records, in
collection order, whose year rendered as text equals the query under
full-string equality (so `"2020"` matches year `2020` only, and `"5"`
does not match `2005`). -/
theorem search_books_year_exact (q : String) (books : List Book) :
    search_books q "year" books =
      books.filter (fun b => q == intToStr b.year) := by
  rw [search_year_eq]
  apply List.filter_congr
  intro b _
  by_cases h : q = intToStr b.year
  · rw [(pyLower_intToStr_iff q b.year).mpr h, h]
  · have h2 : ¬(pyLower q = intToStr b.year) :=
      fun hh => h ((pyLower_intToStr_iff q b.year).mp hh)
    simp [h, h2]

/-- Counterexample for C7 as stated: when the entropy source happens to
return the bytes `00 00 00 00`, `add_book` on a collection already holding
a record with id `0` returns a record whose id equals an id already
present — no collision check is performed. -/
theorem add_book_id_collision :
    (add_book 0 0 0 0 "x" "y" 1 [bookZero]).2.2.id = bookZero.id
    ∧ bookZero ∈ [bookZero]
    ∧ (add_book 0 0 0 0 "x" "y" 1 [bookZero]).2.2.status = statusAvailable :=
  ⟨rfl, by simp, rfl⟩

/-- C7 (amended): `add_book` returns a record whose status is
`statusAvailable` and whose id is the 32-bit integer drawn from the
entropy source, appended to the end of the collection and saved with it;
no collision check is performed, so the returned id differs from every id
already present exactly when the drawn value does. -/
theorem add_book_spec (b0 b1 b2 b3 : Nat) (title author : String)
    (year : Int) (books : List Book) :
    (add_book b0 b1 b2 b3 title author year books).2.2.status
        = statusAvailable
    ∧ (add_book b0 b1 b2 b3 title author year books).2.2.id
        = (generate_unique_id b0 b1 b2 b3 : Int)
    ∧ (add_book b0 b1 b2 b3 title author year books).1
        = books ++ [(add_book b0 b1 b2 b3 title author year books).2.2]
    ∧ (add_book b0 b1 b2 b3 title author year books).2.1
        = (add_book b0 b1 b2 b3 title author year books).1
    ∧ ((∀ b ∈ books, b.id ≠ (generate_unique_id b0 b1 b2 b3 : Int)) →
        ∀ b ∈ books,
          b.id ≠ (add_book b0 b1 b2 b3 title author year books).2.2.id) :=
  ⟨rfl, rfl, rfl, rfl, fun h b hb => h b hb⟩

/-- Witness for C7: with entropy bytes `00 00 00 01` over `[bookZero]`
(whose only id is `0`), the drawn id `1` collides with nothing, so the
returned record's id differs from every id present. -/
theorem add_book_spec_w :
    (add_book 0 0 0 1 "x" "y" 1 [bookZero]).2.2.status = statusAvailable
    ∧ ∀ b ∈ [bookZero],
        b.id ≠ (add_book 0 0 0 1 "x" "y" 1 [bookZero]).2.2.id :=
  ⟨(add_book_spec 0 0 0 1 "x" "y" 1 [bookZero]).1,
   (add_book_spec 0 0 0 1 "x" "y" 1 [bookZero]).2.2.2.2 (by decide)⟩
